import Mathlib

/-!
Verification of the pymasker QA-bitfield mask library (src/pymasker.py).

The library decodes per-pixel quality-assessment bitfields of remote-sensing
rasters into boolean masks.  A QA band is modelled as a two-dimensional grid
of non-negative integers (`List (List Nat)`); numpy elementwise operations
become pointwise maps and zips over the grid.  Python's `<<` on a possibly
negative integer is arithmetic, i.e. multiplication by a power of two, so
shifted comparison targets live in `Int`.
-/

namespace Pymasker

/-- Errors raised by the modelled code paths.  `valueError` models Python's
ValueError raised by evaluating a binary literal of an empty string when
`bit_len = 0`; `genericException` models the plain `raise Exception(msg)` in
`main`; `keyError` models a failed dictionary lookup.  The constructors
`unknownConditionError` and `configurationError` are modelled from the spec:
its error taxonomy (section 7) names these two classes, but no such classes
exist anywhere in the source. -/
inductive PyError where
  | valueError : PyError
  | keyError : PyError
  | genericException : String → PyError
  | unknownConditionError : PyError
  | configurationError : PyError
  deriving DecidableEq

/-- A QA band: a two-dimensional grid of non-negative cell values. -/
abbrev Band := List (List Nat)

/-- A boolean mask grid. -/
abbrev BoolGrid := List (List Bool)

/-- Pointwise map of a cell predicate over a band (a numpy elementwise op). -/
def gridMap (f : Nat → Bool) (band : Band) : BoolGrid :=
  band.map (List.map f)

/-- Pointwise combination of two mask grids (np.logical_and / np.logical_or). -/
def gridZip (op : Bool → Bool → Bool) (a b : BoolGrid) : BoolGrid :=
  List.zipWith (List.zipWith op) a b

/-- Models numpy astype(int) on a boolean mask: True maps to 1, False to 0. -/
def astype (m : BoolGrid) : List (List Nat) :=
  m.map (List.map (fun b => if b then 1 else 0))

/-- The all-zero integer grid of the same shape as the band. -/
def zeroGrid (band : Band) : List (List Nat) :=
  band.map (List.map (fun _ => 0))

/-- The all-one integer grid of the same shape as the band. -/
def oneGrid (band : Band) : List (List Nat) :=
  band.map (List.map (fun _ => 1))

/-- Confidence code `LandsatConfidence.high` (source line 107). -/
def LandsatConfidence.high : Int := 3

/-- Confidence code `LandsatConfidence.medium` (source line 108). -/
def LandsatConfidence.medium : Int := 2

/-- Confidence code `LandsatConfidence.low` (source line 109). -/
def LandsatConfidence.low : Int := 1

/-- Confidence code `LandsatConfidence.undefined` (source line 110). -/
def LandsatConfidence.undefined : Int := 0

/-- Sentinel confidence code `LandsatConfidence.none` (source line 111). -/
def LandsatConfidence.none : Int := -1

/-- Cell-level body of `Masker.get_mask` (source lines 56-63): `bitlen` is the
base-2 value of a string of `bit_len` ones, i.e. `2 ^ bit_len - 1`; the cell is
ANDed with `bitlen <<< bit_pos` and compared for equality with
`value <<< bit_pos` (arithmetic shift, `value * 2 ^ bit_pos`). -/
def get_mask_cell (cell : Nat) (bit_pos bit_len : Nat) (value : Int) : Bool :=
  let bitlen : Nat := 2 ^ bit_len - 1
  let pos_value : Nat := bitlen <<< bit_pos
  let con_value : Int := value * 2 ^ bit_pos
  decide (((cell &&& pos_value : Nat) : Int) = con_value)

/-- `Masker.get_mask` (source lines 48-65).  When `bit_len = 0` the source
evaluates a base-2 literal of the empty string, which raises ValueError; the
integer-`value` branch is modelled (a string `value` is parsed to an integer
first and behaves identically afterwards).  The boolean comparison result is
converted with astype(int). -/
def Masker.get_mask (band : Band) (bit_pos bit_len : Nat) (value : Int) :
    Except PyError (List (List Nat)) :=
  if bit_len = 0 then Except.error PyError.valueError
  else Except.ok (astype (gridMap (fun c => get_mask_cell c bit_pos bit_len value) band))

/-- Cell-level body of `LandsatMasker.__get_mask` (source lines 236-254): the
cell is ANDed with `bit_len <<< bit_loc` (the width constant itself, not the
all-ones range mask) and compared with `value <<< bit_loc`; cumulative mode
uses `>=`, otherwise `==`. -/
def landsat_get_mask_cell (cell : Nat) (bit_loc bit_len : Nat) (value : Int)
    (cumulative : Bool) : Bool :=
  let pos_value : Nat := bit_len <<< bit_loc
  let con_value : Int := value * 2 ^ bit_loc
  if cumulative then decide (con_value ≤ ((cell &&& pos_value : Nat) : Int))
  else decide (((cell &&& pos_value : Nat) : Int) = con_value)

/-- `LandsatMasker.__get_mask` lifted to the whole band; returns the boolean
mask (no astype conversion happens inside the private helper). -/
def landsat_get_mask (band : Band) (bit_loc bit_len : Nat) (value : Int)
    (cumulative : Bool) : BoolGrid :=
  gridMap (fun c => landsat_get_mask_cell c bit_loc bit_len value cumulative) band

/-- `LandsatMasker.get_cloud_mask` (source line 127): offset 14, width 3. -/
def get_cloud_mask (band : Band) (conf : Int) (cumulative : Bool) : List (List Nat) :=
  astype (landsat_get_mask band 14 3 conf cumulative)

/-- `LandsatMasker.get_cirrus_mask` (source line 140): offset 12, width 3. -/
def get_cirrus_mask (band : Band) (conf : Int) (cumulative : Bool) : List (List Nat) :=
  astype (landsat_get_mask band 12 3 conf cumulative)

/-- `LandsatMasker.get_veg_mask` (source line 152): offset 8, width 3. -/
def get_veg_mask (band : Band) (conf : Int) (cumulative : Bool) : List (List Nat) :=
  astype (landsat_get_mask band 8 3 conf cumulative)

/-- `LandsatMasker.get_water_mask` (source line 164): offset 4, width 3. -/
def get_water_mask (band : Band) (conf : Int) (cumulative : Bool) : List (List Nat) :=
  astype (landsat_get_mask band 4 3 conf cumulative)

/-- `LandsatMasker.get_snow_mask` (source line 176): offset 10, width 3. -/
def get_snow_mask (band : Band) (conf : Int) (cumulative : Bool) : List (List Nat) :=
  astype (landsat_get_mask band 10 3 conf cumulative)

/-- `LandsatMasker.get_fill_mask` (source line 184): offset 0, width 1,
target 1, non-cumulative; the boolean mask is returned without astype. -/
def get_fill_mask (band : Band) : BoolGrid :=
  landsat_get_mask band 0 1 1 false

/-- The basic mask of `get_multi_mask` (source lines 213-216): elementwise
`band_data < 0` when inclusive, `band_data >= 0` otherwise. -/
def base_mask (band : Band) (inclusive : Bool) : BoolGrid :=
  if inclusive then gridMap (fun c => decide ((c : Int) < 0)) band
  else gridMap (fun c => decide ((0 : Int) ≤ (c : Int))) band

/-- The task list of `get_multi_mask` (source lines 218-224): one
`(bit offset, confidence, cumulative)` triple per condition, in source order. -/
def multi_tasks (cloud : Int) (cloud_cum : Bool) (cirrus : Int) (cirrus_cum : Bool)
    (snow : Int) (snow_cum : Bool) (veg : Int) (veg_cum : Bool)
    (water : Int) (water_cum : Bool) : List (Nat × Int × Bool) :=
  [(8, veg, veg_cum), (10, snow, snow_cum), (12, cirrus, cirrus_cum),
   (14, cloud, cloud_cum), (4, water, water_cum)]

/-- The loop of `get_multi_mask` (source lines 226-232): every task is folded
into the accumulator (no task is skipped), each with bit width 3, by
np.logical_or when inclusive and np.logical_and otherwise. -/
def multi_fold (band : Band) (inclusive : Bool) (tasks : List (Nat × Int × Bool))
    (acc : BoolGrid) : BoolGrid :=
  tasks.foldl (fun a t =>
    let mask := landsat_get_mask band t.1 3 t.2.1 t.2.2
    if inclusive then gridZip (fun x y => x || y) a mask
    else gridZip (fun x y => x && y) a mask) acc

/-- `LandsatMasker.get_multi_mask` (source lines 186-234). -/
def get_multi_mask (band : Band) (cloud : Int) (cloud_cum : Bool)
    (cirrus : Int) (cirrus_cum : Bool) (snow : Int) (snow_cum : Bool)
    (veg : Int) (veg_cum : Bool) (water : Int) (water_cum : Bool)
    (inclusive : Bool) : List (List Nat) :=
  astype (multi_fold band inclusive
    (multi_tasks cloud cloud_cum cirrus cirrus_cum snow snow_cum veg veg_cum water water_cum)
    (base_mask band inclusive))

/-- Cell-level form of the `get_multi_mask` fold over an arbitrary task list. -/
def multi_fold_cell (cell : Nat) (inclusive : Bool) (tasks : List (Nat × Int × Bool))
    (acc : Bool) : Bool :=
  tasks.foldl (fun a t =>
    if inclusive then a || landsat_get_mask_cell cell t.1 3 t.2.1 t.2.2
    else a && landsat_get_mask_cell cell t.1 3 t.2.1 t.2.2) acc

/-- Masker object state: `file_path` and `band_data` are the only attributes
the source assigns (lines 27, 45-46). -/
structure MaskerState where
  file_path : Option String
  band_data : Band

/-- `Masker.load_data` (source lines 39-46). -/
def load_data (array : Band) : MaskerState :=
  { file_path := Option.none, band_data := array }

/-- `Masker.get_mask` as a method: reads `self.band_data` and assigns no
attribute, so the state is returned unchanged alongside the mask. -/
def Masker.get_mask_st (self : MaskerState) (bit_pos bit_len : Nat) (value : Int) :
    Except PyError (List (List Nat)) × MaskerState :=
  (Masker.get_mask self.band_data bit_pos bit_len value, self)

/-- `get_cloud_mask` as a method on the object state. -/
def get_cloud_mask_st (self : MaskerState) (conf : Int) (cumulative : Bool) :
    List (List Nat) × MaskerState :=
  (get_cloud_mask self.band_data conf cumulative, self)

/-- `get_fill_mask` as a method on the object state. -/
def get_fill_mask_st (self : MaskerState) : BoolGrid × MaskerState :=
  (get_fill_mask self.band_data, self)

/-- `get_multi_mask` as a method on the object state. -/
def get_multi_mask_st (self : MaskerState) (cloud : Int) (cloud_cum : Bool)
    (cirrus : Int) (cirrus_cum : Bool) (snow : Int) (snow_cum : Bool)
    (veg : Int) (veg_cum : Bool) (water : Int) (water_cum : Bool)
    (inclusive : Bool) : List (List Nat) × MaskerState :=
  (get_multi_mask self.band_data cloud cloud_cum cirrus cirrus_cum snow snow_cum
     veg veg_cum water water_cum inclusive, self)

/-- The landsat target dispatch of `main` (source lines 315-326): the five
recognized targets call their getters with the default `cumulative = False`;
any other target raises a plain Exception with the unrecognized-type message. -/
def landsat_target_dispatch (band : Band) (target : String) (conf : Int) :
    Except PyError (List (List Nat)) :=
  if target = "cloud" then Except.ok (get_cloud_mask band conf false)
  else if target = "cirrus" then Except.ok (get_cirrus_mask band conf false)
  else if target = "water" then Except.ok (get_water_mask band conf false)
  else if target = "vegetation" then Except.ok (get_veg_mask band conf false)
  else if target = "snow" then Except.ok (get_snow_mask band conf false)
  else Except.error (PyError.genericException ("Masker type " ++ target ++ " is unrecongized."))

/-- Modelled from the spec: the corrected `at_least` comparison of section 4.1,
which ANDs the cell with the full bit-range mask
`((1 <<< bit_width) - 1) <<< bit_offset` before comparing with the shifted
target.  No such code exists in the source; it is the contract the spec says
implementers should test against. -/
def extract_at_least_cell (cell : Nat) (bit_offset bit_width : Nat) (value : Int) : Bool :=
  decide (value * 2 ^ bit_offset ≤ ((cell &&& ((2 ^ bit_width - 1) <<< bit_offset) : Nat) : Int))

/-! ### Helper lemmas -/

/-- ANDing with a shifted mask is the shifted AND of the shifted-down cell. -/
theorem land_shiftLeft_shiftRight (c m p : Nat) :
    c &&& (m <<< p) = ((c >>> p) &&& m) <<< p := by
  apply Nat.eq_of_testBit_eq
  intro i
  simp only [Nat.testBit_land, Nat.testBit_shiftLeft, Nat.testBit_shiftRight]
  by_cases hip : p ≤ i
  · have hpi : p + (i - p) = i := by omega
    simp [ge_iff_le, hip, hpi]
  · simp [ge_iff_le, hip]

/-- The exact comparison of `Masker.get_mask` at one cell tests whether the
field value, the bits in the window read as an integer, equals the target. -/
theorem get_mask_cell_eq (c p w : Nat) (v : Int) :
    get_mask_cell c p w v = decide ((((c >>> p) % 2 ^ w : Nat) : Int) = v) := by
  simp only [get_mask_cell]
  rw [land_shiftLeft_shiftRight, Nat.and_pow_two_sub_one_eq_mod, Nat.shiftLeft_eq]
  simp only [decide_eq_decide]
  push_cast
  constructor
  · intro h
    have hp : ((2 : Int) ^ p) ≠ 0 := by positivity
    exact mul_right_cancel₀ hp h
  · intro h
    rw [h]

/-- The exact comparison of the Landsat-private extraction at one cell tests
the shifted-down cell ANDed with the width constant itself. -/
theorem landsat_exact_cell_eq (c p w : Nat) (v : Int) :
    landsat_get_mask_cell c p w v false = decide ((((c >>> p) &&& w : Nat) : Int) = v) := by
  unfold landsat_get_mask_cell
  rw [if_neg Bool.false_ne_true, land_shiftLeft_shiftRight, Nat.shiftLeft_eq]
  simp only [decide_eq_decide]
  push_cast
  constructor
  · intro h
    have hp : ((2 : Int) ^ p) ≠ 0 := by positivity
    exact mul_right_cancel₀ hp h
  · intro h
    rw [h]

/-- A negative target never matches exactly: the masked cell is non-negative. -/
theorem landsat_cell_neg_exact (c p w : Nat) (v : Int) (hv : v < 0) :
    landsat_get_mask_cell c p w v false = false := by
  unfold landsat_get_mask_cell
  rw [if_neg Bool.false_ne_true, decide_eq_false_iff_not]
  intro h
  have h0 : (0 : Int) ≤ ((c &&& (w <<< p) : Nat) : Int) := Int.natCast_nonneg _
  have hp : (0 : Int) < 2 ^ p := by positivity
  nlinarith

/-- A negative target is always reached cumulatively: the masked cell is
non-negative and the shifted target negative. -/
theorem landsat_cell_neg_cum (c p w : Nat) (v : Int) (hv : v < 0) :
    landsat_get_mask_cell c p w v true = true := by
  unfold landsat_get_mask_cell
  rw [if_pos rfl, decide_eq_true_eq]
  have h0 : (0 : Int) ≤ ((c &&& (w <<< p) : Nat) : Int) := Int.natCast_nonneg _
  have hp : (0 : Int) < 2 ^ p := by positivity
  nlinarith

/-- Specialisation of `landsat_cell_neg_exact` to the sentinel code. -/
theorem landsat_cell_none_exact (c p w : Nat) :
    landsat_get_mask_cell c p w (-1) false = false :=
  landsat_cell_neg_exact c p w (-1) (by decide)

/-- Specialisation of `landsat_cell_neg_cum` to the sentinel code. -/
theorem landsat_cell_none_cum (c p w : Nat) :
    landsat_get_mask_cell c p w (-1) true = true :=
  landsat_cell_neg_cum c p w (-1) (by decide)

/-- Pointwise-equal cell predicates give the same mask grid. -/
theorem gridMap_congr {f g : Nat → Bool} (h : ∀ c, f c = g c) (band : Band) :
    gridMap f band = gridMap g band := by
  have hfg : f = g := funext h
  rw [hfg]

/-- Converting the all-false mask gives the all-zero grid. -/
theorem astype_const_false (band : Band) :
    astype (gridMap (fun _ => false) band) = zeroGrid band := by
  simp [astype, gridMap, zeroGrid, List.map_map, Function.comp_def, List.map_const]

/-- Converting the all-true mask gives the all-one grid. -/
theorem astype_const_true (band : Band) :
    astype (gridMap (fun _ => true) band) = oneGrid band := by
  simp [astype, gridMap, oneGrid, List.map_map, Function.comp_def, List.map_const]

/-- Sentinel-valued non-cumulative Landsat extraction converts to all zeros. -/
theorem landsat_mask_none_exact (band : Band) (p w : Nat) :
    astype (landsat_get_mask band p w (-1) false) = zeroGrid band := by
  unfold landsat_get_mask
  rw [gridMap_congr (fun c => landsat_cell_none_exact c p w) band]
  exact astype_const_false band

/-- Sentinel-valued cumulative Landsat extraction converts to all ones. -/
theorem landsat_mask_none_cum (band : Band) (p w : Nat) :
    astype (landsat_get_mask band p w (-1) true) = oneGrid band := by
  unfold landsat_get_mask
  rw [gridMap_congr (fun c => landsat_cell_none_cum c p w) band]
  exact astype_const_true band

/-- Zipping two maps of the same list is the map of the combined function. -/
theorem zipWith_map_same {α β : Type} (op : β → β → β) (f g : α → β) (l : List α) :
    List.zipWith op (l.map f) (l.map g) = l.map (fun c => op (f c) (g c)) := by
  induction l with
  | nil => rfl
  | cons a l ih => simp [ih]

/-- Grid version of `zipWith_map_same`. -/
theorem gridZip_gridMap (op : Bool → Bool → Bool) (f g : Nat → Bool) (band : Band) :
    gridZip op (gridMap f band) (gridMap g band) = gridMap (fun c => op (f c) (g c)) band := by
  induction band with
  | nil => rfl
  | cons row rest ih =>
    simp only [gridZip, gridMap, List.map_cons, List.zipWith_cons_cons] at ih ⊢
    rw [zipWith_map_same]
    exact congrArg _ ih

/-- The multi-mask fold over grids computes the cell-level fold pointwise. -/
theorem multi_fold_gridMap (band : Band) (inclusive : Bool)
    (tasks : List (Nat × Int × Bool)) (f : Nat → Bool) :
    multi_fold band inclusive tasks (gridMap f band)
      = gridMap (fun c => multi_fold_cell c inclusive tasks (f c)) band := by
  induction tasks generalizing f with
  | nil => rfl
  | cons t ts ih =>
    have hstep : multi_fold band inclusive (t :: ts) (gridMap f band)
        = multi_fold band inclusive ts
            (gridMap (fun c =>
              if inclusive then f c || landsat_get_mask_cell c t.1 3 t.2.1 t.2.2
              else f c && landsat_get_mask_cell c t.1 3 t.2.1 t.2.2) band) := by
      cases inclusive <;>
        simp [multi_fold, landsat_get_mask, gridZip_gridMap]
    rw [hstep, ih]
    apply gridMap_congr
    intro c
    cases inclusive <;> simp [multi_fold_cell]

/-- The exclusive cell-level fold is the AND of the accumulator with the
conjunction over all tasks. -/
theorem multi_fold_cell_all (c : Nat) (tasks : List (Nat × Int × Bool)) (b : Bool) :
    multi_fold_cell c false tasks b
      = (b && tasks.all (fun t => landsat_get_mask_cell c t.1 3 t.2.1 t.2.2)) := by
  induction tasks generalizing b with
  | nil => simp [multi_fold_cell]
  | cons t ts ih =>
    simp only [multi_fold_cell, List.foldl_cons] at ih ⊢
    rw [if_neg Bool.false_ne_true, ih, List.all_cons, Bool.and_assoc]

/-- The inclusive cell-level fold is the OR of the accumulator with the
disjunction over all tasks. -/
theorem multi_fold_cell_any (c : Nat) (tasks : List (Nat × Int × Bool)) (b : Bool) :
    multi_fold_cell c true tasks b
      = (b || tasks.any (fun t => landsat_get_mask_cell c t.1 3 t.2.1 t.2.2)) := by
  induction tasks generalizing b with
  | nil => simp [multi_fold_cell]
  | cons t ts ih =>
    have h1 : multi_fold_cell c true (t :: ts) b
        = multi_fold_cell c true ts (b || landsat_get_mask_cell c t.1 3 t.2.1 t.2.2) := by
      simp [multi_fold_cell]
    rw [h1, ih, List.any_cons, Bool.or_assoc]

/-- Permuted lists have equal `all`. -/
theorem perm_all_eq {α : Type} (f : α → Bool) {l₁ l₂ : List α} (h : l₁.Perm l₂) :
    l₁.all f = l₂.all f := by
  rw [Bool.eq_iff_iff]
  simp only [List.all_eq_true]
  constructor
  · intro ha x hx
    exact ha x (h.mem_iff.mpr hx)
  · intro ha x hx
    exact ha x (h.mem_iff.mp hx)

/-- Permuted lists have equal `any`. -/
theorem perm_any_eq {α : Type} (f : α → Bool) {l₁ l₂ : List α} (h : l₁.Perm l₂) :
    l₁.any f = l₂.any f := by
  rw [Bool.eq_iff_iff]
  simp only [List.any_eq_true]
  constructor
  · rintro ⟨x, hx, hfx⟩
    exact ⟨x, h.mem_iff.mp hx, hfx⟩
  · rintro ⟨x, hx, hfx⟩
    exact ⟨x, h.mem_iff.mpr hx, hfx⟩

/-- The basic mask of `get_multi_mask` as a pointwise map. -/
theorem base_mask_eq (band : Band) (inclusive : Bool) :
    base_mask band inclusive
      = gridMap (fun c =>
          if inclusive then decide ((c : Int) < 0) else decide ((0 : Int) ≤ (c : Int))) band := by
  cases inclusive <;> simp [base_mask]

/-! ### Claim theorems -/

/-- C1: the cumulative (at_least) extraction is claimed to compare the cell
against the full bit-range mask `((1 <<< w) - 1) <<< p`; the code instead ANDs
with the width constant `w <<< p`.  At cell value 4 with offset 0, width 3 and
target 1 the field value is 4, which is at least 1, so the claimed (corrected,
spec section 4.1) semantics yield true, but the code computes
`(4 &&& 3) = 0 >= 1`, i.e. false. -/
theorem cumulative_mask_uses_width_constant :
    landsat_get_mask [[4]] 0 3 1 true = [[false]] ∧
    extract_at_least_cell 4 0 3 1 = true ∧
    (4 >>> 0) % 2 ^ 3 = 4 :=
  ⟨by decide, by decide, by decide⟩

/-- C2 counterexample: exact extraction is claimed to return true iff the bits
at `[p, p + w)` equal the target; at cell 4 with offset 0, width 3 and target 4
the field value is exactly 4, yet the Landsat-internal extraction, which every
named condition getter uses, returns false, because it ANDs with the width
constant `3` instead of the range mask `7`. -/
theorem landsat_exact_mask_misses_high_bit :
    landsat_get_mask [[4]] 0 3 4 false = [[false]] ∧
    (4 >>> 0) % 2 ^ 3 = 4 :=
  ⟨by decide, by decide⟩

/-- C2 (amended): `Masker.get_mask` exact extraction returns true at a cell iff
the field value, the bits at `[p, p + w)` read as an integer, equals the target
exactly (a target at least `2 ^ w` matches nothing; there is no truncation),
while the Landsat-internal exact extraction compares `(cell >>> p) &&& w`
with the target, which agrees with the field comparison only when `w = 1`. -/
theorem exact_mask_characterization :
    (∀ (band : Band) (p w : Nat) (v : Int), 1 ≤ w →
      Masker.get_mask band p w v
        = Except.ok (astype (gridMap (fun c =>
            decide ((((c >>> p) % 2 ^ w : Nat) : Int) = v)) band))) ∧
    (∀ (band : Band) (p w : Nat) (v : Int),
      landsat_get_mask band p w v false
        = gridMap (fun c => decide ((((c >>> p) &&& w : Nat) : Int) = v)) band) := by
  constructor
  · intro band p w v hw
    have hw0 : ¬(w = 0) := by omega
    have h := gridMap_congr (fun c => get_mask_cell_eq c p w v) band
    simp only [Masker.get_mask, if_neg hw0, h]
  · intro band p w v
    exact gridMap_congr (fun c => landsat_exact_cell_eq c p w v) band

/-- Witness for the amended C2 at band `[[5]]`, offset 1, width 2, target 2. -/
theorem exact_mask_characterization_witness :
    (1 : Nat) ≤ 2 ∧
    Masker.get_mask [[5]] 1 2 2
      = Except.ok (astype (gridMap (fun c =>
          decide ((((c >>> 1) % 2 ^ 2 : Nat) : Int) = 2)) [[5]])) :=
  ⟨by decide, exact_mask_characterization.1 [[5]] 1 2 2 (by decide)⟩

/-- C3: conditions at the sentinel level are claimed to be skipped, so that
`get_multi_mask` with all five conditions at `none` returns an all-true mask
when `inclusive = false`; the code skips nothing, each sentinel-level task
contributes an all-false comparison mask, and the conjunction collapses: the
exclusive multi-mask with every condition at the sentinel is all-zero on every
band. -/
theorem multi_mask_all_none_exclusive_all_false (band : Band) :
    get_multi_mask band LandsatConfidence.none false LandsatConfidence.none false
      LandsatConfidence.none false LandsatConfidence.none false LandsatConfidence.none false
      false = zeroGrid band := by
  unfold get_multi_mask
  rw [base_mask_eq, multi_fold_gridMap]
  have hcell : ∀ c : Nat,
      multi_fold_cell c false
        (multi_tasks LandsatConfidence.none false LandsatConfidence.none false
          LandsatConfidence.none false LandsatConfidence.none false LandsatConfidence.none false)
        (if false then decide ((c : Int) < 0) else decide ((0 : Int) ≤ (c : Int))) = false := by
    intro c
    rw [multi_fold_cell_all]
    simp [multi_tasks, LandsatConfidence.none, landsat_cell_none_exact]
  rw [gridMap_congr hcell band]
  exact astype_const_false band

/-- C4: a cell with value 49152 (bits 14 and 15 set, all others clear) has
field value 3 at offset 14, width 3, so the cloud query at confidence high
with `cumulative = false` returns true there. -/
theorem cloud_mask_high_conf_true_at_49152 :
    get_cloud_mask [[49152]] LandsatConfidence.high false = [[1]] := by decide

/-- C5: `get_fill_mask` is true at exactly the cells whose bit 0 is 1,
independent of all other bits. -/
theorem fill_mask_iff_bit0 (band : Band) :
    get_fill_mask band = gridMap (fun c => c.testBit 0) band := by
  unfold get_fill_mask landsat_get_mask
  apply gridMap_congr
  intro c
  rw [landsat_exact_cell_eq, Nat.testBit_zero]
  simp only [decide_eq_decide, Nat.shiftRight_zero, Nat.and_one_is_mod]
  constructor
  · intro h
    exact_mod_cast h
  · intro h
    exact_mod_cast h

/-- C6 counterexample: `get_multi_mask` is claimed to equal the fold over the
non-skipped conditions only.  With vegetation at level 0 (a real level) and the
other four at the sentinel, the only non-skipped request is vegetation, whose
individual mask at cell 0 is true, so the claimed fold yields an all-true mask;
the code returns the all-zero mask because the sentinel tasks are folded too. -/
theorem multi_mask_does_not_skip_none :
    get_multi_mask [[0]] (-1) false (-1) false (-1) false 0 false (-1) false false = [[0]] ∧
    multi_fold_cell 0 false [(8, 0, false)] true = true :=
  ⟨by decide, by decide⟩

/-- C6 (amended): `get_multi_mask` equals the pointwise fold by logical AND
(`inclusive = false`) or logical OR (`inclusive = true`) of the individual
per-condition comparison masks over all five conditions, sentinel-level
conditions folded like any other rather than skipped, and the result is
independent of the order in which the five tasks are folded. -/
theorem multi_mask_eq_fold_all_tasks (band : Band) (cloud : Int) (cloud_cum : Bool)
    (cirrus : Int) (cirrus_cum : Bool) (snow : Int) (snow_cum : Bool)
    (veg : Int) (veg_cum : Bool) (water : Int) (water_cum : Bool) (inclusive : Bool)
    (tasks : List (Nat × Int × Bool))
    (hperm : tasks.Perm (multi_tasks cloud cloud_cum cirrus cirrus_cum snow snow_cum
      veg veg_cum water water_cum)) :
    get_multi_mask band cloud cloud_cum cirrus cirrus_cum snow snow_cum veg veg_cum
      water water_cum inclusive
      = astype (gridMap (fun c =>
          if inclusive then tasks.any (fun t => landsat_get_mask_cell c t.1 3 t.2.1 t.2.2)
          else tasks.all (fun t => landsat_get_mask_cell c t.1 3 t.2.1 t.2.2)) band) := by
  unfold get_multi_mask
  rw [base_mask_eq, multi_fold_gridMap]
  have hcell : ∀ c : Nat,
      multi_fold_cell c inclusive
        (multi_tasks cloud cloud_cum cirrus cirrus_cum snow snow_cum veg veg_cum water water_cum)
        (if inclusive then decide ((c : Int) < 0) else decide ((0 : Int) ≤ (c : Int)))
      = (if inclusive then tasks.any (fun t => landsat_get_mask_cell c t.1 3 t.2.1 t.2.2)
         else tasks.all (fun t => landsat_get_mask_cell c t.1 3 t.2.1 t.2.2)) := by
    intro c
    cases inclusive
    · rw [if_neg Bool.false_ne_true, if_neg Bool.false_ne_true, multi_fold_cell_all,
        perm_all_eq _ hperm]
      simp
    · rw [if_pos rfl, if_pos rfl, multi_fold_cell_any, perm_any_eq _ hperm]
      simp
  rw [gridMap_congr hcell band]

/-- Witness for the amended C6: cloud and water at high confidence, the rest at
the sentinel, on the band `[[49152]]`, with the five tasks folded in reversed
order. -/
theorem multi_mask_eq_fold_all_tasks_witness :
    ([((4 : Nat), (3 : Int), false), (14, 3, false), (12, -1, false), (10, -1, false),
        (8, -1, false)] : List (Nat × Int × Bool)).Perm
      (multi_tasks 3 false (-1) false (-1) false (-1) false 3 false) ∧
    get_multi_mask [[49152]] 3 false (-1) false (-1) false (-1) false 3 false false
      = astype (gridMap (fun c =>
          if false then
            ([((4 : Nat), (3 : Int), false), (14, 3, false), (12, -1, false), (10, -1, false),
              (8, -1, false)] : List (Nat × Int × Bool)).any
              (fun t => landsat_get_mask_cell c t.1 3 t.2.1 t.2.2)
          else
            ([((4 : Nat), (3 : Int), false), (14, 3, false), (12, -1, false), (10, -1, false),
              (8, -1, false)] : List (Nat × Int × Bool)).all
              (fun t => landsat_get_mask_cell c t.1 3 t.2.1 t.2.2)) [[49152]]) :=
  ⟨by decide,
   multi_mask_eq_fold_all_tasks [[49152]] 3 false (-1) false (-1) false (-1) false 3 false false
     [((4 : Nat), (3 : Int), false), (14, 3, false), (12, -1, false), (10, -1, false),
       (8, -1, false)] (by decide)⟩

/-- C7 counterexample: a query with an unknown condition name is claimed to
raise `UnknownConditionError` and a zero bit-width one `ConfigurationError`;
the code raises a plain Exception with an unrecognized-type message for the
former and a ValueError (empty base-2 literal) for the latter, and neither
error class exists in the source. -/
theorem dispatch_error_types_differ :
    landsat_target_dispatch [[0]] "fill" LandsatConfidence.high
      = Except.error (PyError.genericException "Masker type fill is unrecongized.") ∧
    PyError.genericException "Masker type fill is unrecongized."
      ≠ PyError.unknownConditionError ∧
    Masker.get_mask [[0]] 0 0 1 = Except.error PyError.valueError ∧
    PyError.valueError ≠ PyError.configurationError :=
  ⟨by rfl, by decide, by rfl, by decide⟩

/-- C7 (amended): a mask query whose target is none of the five recognized
condition names fails with the plain unrecognized-type Exception, and a zero
bit-width query fails with ValueError; in both cases no mask is returned. -/
theorem unknown_target_and_zero_width_errors :
    (∀ (band : Band) (target : String) (conf : Int),
      target ≠ "cloud" → target ≠ "cirrus" → target ≠ "water" →
      target ≠ "vegetation" → target ≠ "snow" →
      landsat_target_dispatch band target conf
        = Except.error (PyError.genericException
            ("Masker type " ++ target ++ " is unrecongized."))) ∧
    (∀ (band : Band) (bit_pos : Nat) (v : Int),
      Masker.get_mask band bit_pos 0 v = Except.error PyError.valueError) := by
  constructor
  · intro band target conf h1 h2 h3 h4 h5
    simp [landsat_target_dispatch, h1, h2, h3, h4, h5]
  · intro band bit_pos v
    rfl

/-- Witness for the amended C7 at the unknown target name qa. -/
theorem unknown_target_and_zero_width_errors_witness :
    ("qa" : String) ≠ "cloud" ∧
    landsat_target_dispatch [[0]] "qa" 0
      = Except.error (PyError.genericException ("Masker type " ++ "qa" ++ " is unrecongized.")) :=
  ⟨by decide,
   unknown_target_and_zero_width_errors.1 [[0]] "qa" 0
     (by decide) (by decide) (by decide) (by decide) (by decide)⟩

/-- C8: every mask query is a pure read of the object state: the state after a
query is the state before it (in particular `band_data` is unmodified), and
repeating the same query on the post-state returns the identical mask. -/
theorem mask_queries_pure (s : MaskerState) (bit_pos bit_len : Nat) (value conf : Int)
    (cumulative : Bool) (cloud : Int) (cloud_cum : Bool) (cirrus : Int) (cirrus_cum : Bool)
    (snow : Int) (snow_cum : Bool) (veg : Int) (veg_cum : Bool) (water : Int)
    (water_cum : Bool) (inclusive : Bool) :
    (Masker.get_mask_st s bit_pos bit_len value).2 = s ∧
    (Masker.get_mask_st (Masker.get_mask_st s bit_pos bit_len value).2 bit_pos bit_len value).1
      = (Masker.get_mask_st s bit_pos bit_len value).1 ∧
    (get_cloud_mask_st s conf cumulative).2 = s ∧
    (get_cloud_mask_st (get_cloud_mask_st s conf cumulative).2 conf cumulative).1
      = (get_cloud_mask_st s conf cumulative).1 ∧
    (get_fill_mask_st s).2 = s ∧
    (get_fill_mask_st (get_fill_mask_st s).2).1 = (get_fill_mask_st s).1 ∧
    (get_multi_mask_st s cloud cloud_cum cirrus cirrus_cum snow snow_cum veg veg_cum
        water water_cum inclusive).2 = s ∧
    (get_multi_mask_st
        (get_multi_mask_st s cloud cloud_cum cirrus cirrus_cum snow snow_cum veg veg_cum
          water water_cum inclusive).2
        cloud cloud_cum cirrus cirrus_cum snow snow_cum veg veg_cum water water_cum inclusive).1
      = (get_multi_mask_st s cloud cloud_cum cirrus cirrus_cum snow snow_cum veg veg_cum
          water water_cum inclusive).1 :=
  ⟨rfl, rfl, rfl, rfl, rfl, rfl, rfl, rfl⟩

/-- C9: every Landsat condition getter at the sentinel level `none = -1`
treats the sentinel as an ordinary comparison value: the masked cell is
non-negative while the shifted target is negative, so the non-cumulative mask
is all-zero and the cumulative mask all-one, on every band. -/
theorem sentinel_none_mask_values (band : Band) :
    get_cloud_mask band LandsatConfidence.none false = zeroGrid band ∧
    get_cloud_mask band LandsatConfidence.none true = oneGrid band ∧
    get_cirrus_mask band LandsatConfidence.none false = zeroGrid band ∧
    get_cirrus_mask band LandsatConfidence.none true = oneGrid band ∧
    get_snow_mask band LandsatConfidence.none false = zeroGrid band ∧
    get_snow_mask band LandsatConfidence.none true = oneGrid band ∧
    get_veg_mask band LandsatConfidence.none false = zeroGrid band ∧
    get_veg_mask band LandsatConfidence.none true = oneGrid band ∧
    get_water_mask band LandsatConfidence.none false = zeroGrid band ∧
    get_water_mask band LandsatConfidence.none true = oneGrid band :=
  ⟨landsat_mask_none_exact band 14 3, landsat_mask_none_cum band 14 3,
   landsat_mask_none_exact band 12 3, landsat_mask_none_cum band 12 3,
   landsat_mask_none_exact band 10 3, landsat_mask_none_cum band 10 3,
   landsat_mask_none_exact band 8 3, landsat_mask_none_cum band 8 3,
   landsat_mask_none_exact band 4 3, landsat_mask_none_cum band 4 3⟩

/-- C10: `Masker.get_mask` with an integer target of at least `2 ^ bit_len`
returns the all-zero mask: the cell ANDed with the range mask is confined to
the field's bits and can never equal the wider shifted target. -/
theorem get_mask_wide_target_all_zero (band : Band) (bit_pos bit_len : Nat) (v : Int)
    (hw : 1 ≤ bit_len) (hv : (2 : Int) ^ bit_len ≤ v) :
    Masker.get_mask band bit_pos bit_len v = Except.ok (zeroGrid band) := by
  have hw0 : ¬(bit_len = 0) := by omega
  have hcell : ∀ c : Nat, get_mask_cell c bit_pos bit_len v = false := by
    intro c
    rw [get_mask_cell_eq, decide_eq_false_iff_not]
    intro h
    have h1 : ((c >>> bit_pos) % 2 ^ bit_len : Nat) < 2 ^ bit_len :=
      Nat.mod_lt _ (by positivity)
    have h2 : (((c >>> bit_pos) % 2 ^ bit_len : Nat) : Int) < (2 : Int) ^ bit_len := by
      exact_mod_cast h1
    linarith
  simp only [Masker.get_mask, if_neg hw0, gridMap_congr hcell band]
  rw [astype_const_false band]

/-- Witness for C10 at band `[[1]]`, offset 0, width 1, target 2. -/
theorem get_mask_wide_target_all_zero_witness :
    ((1 : Nat) ≤ 1 ∧ (2 : Int) ^ 1 ≤ 2) ∧
    Masker.get_mask [[1]] 0 1 2 = Except.ok (zeroGrid [[1]]) :=
  ⟨⟨by decide, by decide⟩, get_mask_wide_target_all_zero [[1]] 0 1 2 (by decide) (by decide)⟩

end Pymasker
